import Mathlib

/-!
Shallow embedding of the AD9833 waveform-generator driver
(`AD9833_Sine_Sq_Trang.py`).  The Python class `AD9833` keeps three
mutable attributes (`waveform_mode`, `active_channel`, `frequency`) and
emits 16-bit words over SPI via `self.write`.  We model the attributes as
an explicit `State` record and each method as a pure function returning
the updated state together with the list of words passed to `write`, in
order.  Python integers are modelled as `ℤ`/`ℕ` (Python `&` with an
all-ones mask is `emod` by the corresponding power of two, and `>>` is
floor division, also on negatives); the float frequency argument is
idealised as `ℚ`, with Python's `round` (banker's rounding, half to
even) made explicit as `pyRound`.
-/

namespace AD9833

/-- Python's built-in `round`: nearest integer, ties to even. -/
def pyRound (q : ℚ) : ℤ :=
  let n : ℤ := ⌊q⌋
  let r : ℚ := q - n
  if r < 1/2 then n
  else if 1/2 < r then n + 1
  else if n % 2 = 0 then n else n + 1

/-- Class constant `DDS_CLOCK = 25000000.0`. -/
def DDS_CLOCK : ℚ := 25000000

/-- Class constant `DDS_MAX_FREQ = 268435456` (2^28). -/
def DDS_MAX_FREQ : ℕ := 268435456

/-- Bit position constant `DDS_B28 = 13`. -/
def DDS_B28 : ℕ := 13

/-- Bit position constant `DDS_FSELECT = 11`. -/
def DDS_FSELECT : ℕ := 11

/-- Bit position constant `DDS_RESET = 8`. -/
def DDS_RESET : ℕ := 8

/-- Bit position constant `DDS_OPBITEN = 5`. -/
def DDS_OPBITEN : ℕ := 5

/-- Bit position constant `DDS_MODE = 1`. -/
def DDS_MODE : ℕ := 1

/-- Waveform constant `DDS_SINE = 0`. -/
def DDS_SINE : ℕ := 0

/-- Waveform constant `DDS_TRIANGLE = 1 << DDS_MODE`. -/
def DDS_TRIANGLE : ℕ := 1 <<< DDS_MODE

/-- Waveform constant `DDS_SQUARE = 1 << DDS_OPBITEN`. -/
def DDS_SQUARE : ℕ := 1 <<< DDS_OPBITEN

/-- The mutable attributes of the Python `AD9833` object that the
protocol logic reads and writes. -/
structure State where
  waveform_mode : ℕ
  active_channel : ℕ
  frequency : ℚ
deriving DecidableEq, Repr

/-- State established by `__init__`: `waveform_mode = DDS_SINE`,
`active_channel = 0`, `frequency = 1000`. -/
def initState : State :=
  { waveform_mode := DDS_SINE, active_channel := 0, frequency := 1000 }

/-- Words sent by `__init__` after setting the attributes:
`write(1 << DDS_RESET)` then `write((1 << DDS_B28) | waveform_mode)`
with `waveform_mode = DDS_SINE`. -/
def initWrites : List ℕ :=
  [1 <<< DDS_RESET, (1 <<< DDS_B28) ||| DDS_SINE]

/-- Line 60: `freq_setting = int(round(freq * DDS_MAX_FREQ / DDS_CLOCK))`. -/
def freq_setting (freq : ℚ) : ℤ :=
  pyRound (freq * (DDS_MAX_FREQ : ℚ) / DDS_CLOCK)

/-- Method `set_frequency(freq, register=0, **args)`: returns the updated
state and the words written, in order.  `self.active_channel` and
`self.frequency` are assigned first (lines 56-57), before any write.
Python `x & 0x3FFF` on a possibly negative int is `x % 0x4000` (the
Euclidean `Int.emod`, nonnegative for a positive modulus, as in Python),
and `x >> 14` is floor division `x.fdiv 0x4000`; both 14-bit halves are
then OR-ed with `regsel` and masked with `0xFFFF` as on lines 70-73.
`phase = args.get('phase', 0)`. -/
def set_frequency (s : State) (freq : ℚ) (register : ℕ) (phase : ℕ) :
    State × List ℕ :=
  let s' : State := { s with active_channel := register, frequency := freq }
  let fs : ℤ := freq_setting freq
  let modebits : ℕ := (1 <<< DDS_B28) ||| s.waveform_mode
  let regsel : ℕ := if register ≠ 0 then 0x8000 else 0x4000
  (s',
   [(1 <<< DDS_RESET) ||| modebits,
    (regsel ||| (fs % 0x4000).toNat) &&& 0xFFFF,
    (regsel ||| ((fs.fdiv 0x4000) % 0x4000).toNat) &&& 0xFFFF,
    0xC000 ||| phase,
    modebits])

/-- Method `set_waveform_mode(mode)`: sets `self.waveform_mode = mode`,
then writes `mode`, OR-ed with `1 << DDS_FSELECT` when
`self.active_channel` is truthy. -/
def set_waveform_mode (s : State) (mode : ℕ) : State × List ℕ :=
  let s' : State := { s with waveform_mode := mode }
  let modebits : ℕ :=
    if s'.active_channel ≠ 0 then mode ||| (1 <<< DDS_FSELECT) else mode
  (s', [modebits])

/-- The split of a (nonnegative, in-range) tuning word into its low and
high 14-bit halves, as inlined on lines 70 and 73 of `set_frequency`. -/
def split_tuning_word (word : ℕ) : ℕ × ℕ :=
  (word &&& 0x3FFF, (word >>> 14) &&& 0x3FFF)

/-- Attempt a list of words against a fallible transport: `ok i` tells
whether the `i`-th SPI write succeeds.  A failing write raises, so the
words after it are never sent; the result is the words actually emitted
and whether the whole sequence completed. -/
def attemptWrites (ok : ℕ → Bool) : List ℕ → ℕ → List ℕ × Bool
  | [], _ => ([], true)
  | w :: ws, i =>
    if ok i then
      let r := attemptWrites ok ws (i + 1)
      (w :: r.1, r.2)
    else ([], false)

/-- Execution of `set_frequency` against a fallible transport.  The
attribute assignments on lines 56-57 happen before the first write, so
the returned state is the updated one even when a write fails; the
emitted words are the prefix before the first failure. -/
def set_frequency_run (s : State) (ok : ℕ → Bool) (freq : ℚ)
    (register : ℕ) (phase : ℕ) : State × (List ℕ × Bool) :=
  let r := set_frequency s freq register phase
  (r.1, attemptWrites ok r.2 0)

/-- Transport that fails exactly at the third write (index 2). -/
def failThird : ℕ → Bool := fun i => decide (i ≠ 2)

end AD9833

namespace AD9833

/-- Evaluation rule for `pyRound` when the fractional part is below a half. -/
lemma pyRound_eq_of_lt_half (q : ℚ) (n : ℤ) (h1 : (n : ℚ) ≤ q)
    (h2 : q - n < 1/2) : pyRound q = n := by
  have hfl : ⌊q⌋ = n := by
    rw [Int.floor_eq_iff]
    exact ⟨h1, by linarith⟩
  unfold pyRound
  simp only [hfl]
  rw [if_pos h2]

/-- Evaluation rule for `pyRound` when the fractional part is above a half. -/
lemma pyRound_eq_of_half_lt (q : ℚ) (n : ℤ) (h1 : (n : ℚ) ≤ q)
    (h3 : q - n < 1) (h2 : 1/2 < q - n) : pyRound q = n + 1 := by
  have hfl : ⌊q⌋ = n := by
    rw [Int.floor_eq_iff]
    exact ⟨h1, by linarith⟩
  unfold pyRound
  simp only [hfl]
  rw [if_neg (by linarith), if_pos h2]

/-- The tuning word for 1000 Hz at the 25 MHz clock. -/
lemma freq_setting_1000 : freq_setting 1000 = 10737 := by
  unfold freq_setting DDS_MAX_FREQ DDS_CLOCK
  apply pyRound_eq_of_lt_half <;> norm_num

/-- The tuning word computation at the out-of-range argument -1000 Hz. -/
lemma freq_setting_neg_1000 : freq_setting (-1000) = -10737 := by
  unfold freq_setting DDS_MAX_FREQ DDS_CLOCK
  have h := pyRound_eq_of_half_lt ((-1000) * ((268435456 : ℕ) : ℚ) / 25000000)
    (-10738) (by push_cast; norm_num) (by push_cast; norm_num)
    (by push_cast; norm_num)
  rw [h]
  norm_num

/-- An OR whose left operand occupies only bits 14 and above and whose
right operand fits in 14 bits is an addition. -/
lemma lor_of_lt (a b : ℕ) (hb : b < 16384) : (a * 16384) ||| b = a * 16384 + b := by
  have hb' : b < 2 ^ 14 := by omega
  have h := Nat.mul_add_lt_is_or hb' a
  have e : a * 16384 = 2 ^ 14 * a := by ring
  rw [e]
  exact h.symm

/-- Masking with `0xFFFF` is reduction modulo 2^16. -/
lemma and_65535_eq_mod (x : ℕ) : x &&& 65535 = x % 65536 := by
  rw [show (65535 : ℕ) = 2 ^ 16 - 1 from by norm_num,
    Nat.and_pow_two_sub_one_eq_mod]

/-- Masking with `0x3FFF` is reduction modulo 2^14. -/
lemma and_16383_eq_mod (x : ℕ) : x &&& 16383 = x % 16384 := by
  rw [show (16383 : ℕ) = 2 ^ 14 - 1 from by norm_num,
    Nat.and_pow_two_sub_one_eq_mod]

/-- Stripping the register-select prefix and the 16-bit mask off a
frequency-register word recovers the 14-bit payload. -/
lemma regsel_mask_extract (a L : ℕ) (ha : a = 16384 ∨ a = 32768)
    (hL : L < 16384) : ((a ||| L) &&& 65535) &&& 16383 = L := by
  obtain rfl | rfl := ha
  · rw [show (16384 : ℕ) ||| L = 16384 + L from by simpa using lor_of_lt 1 L hL,
      and_65535_eq_mod, and_16383_eq_mod]
    omega
  · rw [show (32768 : ℕ) ||| L = 32768 + L from by simpa using lor_of_lt 2 L hL,
      and_65535_eq_mod, and_16383_eq_mod]
    omega

/-- Reassembling the two 14-bit halves of an integer recovers the
integer modulo 2^28, also for negative integers. -/
lemma reassemble_eq (z : ℤ) :
    ((((z.fdiv 16384) % 16384).toNat) <<< 14) ||| (z % 16384).toNat
      = (z % 268435456).toNat := by
  rw [Int.fdiv_eq_ediv z (show (0 : ℤ) ≤ 16384 by norm_num), Nat.shiftLeft_eq]
  have hL : (z % 16384).toNat < 16384 := by omega
  rw [show ((2 : ℕ) ^ 14) = 16384 from by norm_num, lor_of_lt _ _ hL]
  omega

/-- The second word emitted by `set_frequency`, stripped of its
register-select bits, is the low 14-bit half of the tuning word, and
likewise the third word carries the high half. -/
lemma set_frequency_payloads (s : State) (f : ℚ) (r p : ℕ) :
    ((set_frequency s f r p).2.getD 1 0) &&& 0x3FFF
        = ((freq_setting f) % 16384).toNat ∧
    ((set_frequency s f r p).2.getD 2 0) &&& 0x3FFF
        = (((freq_setting f).fdiv 16384) % 16384).toNat := by
  have hw1 : (set_frequency s f r p).2.getD 1 0 =
      ((if r ≠ 0 then 0x8000 else 0x4000) |||
        ((freq_setting f) % 0x4000).toNat) &&& 0xFFFF := rfl
  have hw2 : (set_frequency s f r p).2.getD 2 0 =
      ((if r ≠ 0 then 0x8000 else 0x4000) |||
        (((freq_setting f).fdiv 0x4000) % 0x4000).toNat) &&& 0xFFFF := rfl
  have hsel : (if r ≠ 0 then (0x8000 : ℕ) else 0x4000) = 16384 ∨
      (if r ≠ 0 then (0x8000 : ℕ) else 0x4000) = 32768 := by
    by_cases hr : r = 0 <;> simp [hr]
  have hL : ((freq_setting f) % 16384).toNat < 16384 := by omega
  have hM : (((freq_setting f).fdiv 16384) % 16384).toNat < 16384 := by omega
  exact ⟨by rw [hw1]; exact regsel_mask_extract _ _ hsel hL,
    by rw [hw2]; exact regsel_mask_extract _ _ hsel hM⟩

/-- C3 counterexample: `set_frequency` performs no validation at all.
At the invalid argument `freq = -1000` (≤ 0, tuning word negative) the
call still attempts all five bus writes — with the words shown — instead
of rejecting with zero writes as the claim states. -/
theorem C3_counterexample :
    (set_frequency initState (-1000) 0 0).2.length = 5 ∧ (5 : ℕ) ≠ 0 ∧
    (set_frequency initState (-1000) 0 0).2 =
      [8448, 22031, 32767, 49152, 8192] := by
  refine ⟨rfl, by decide, ?_⟩
  simp only [set_frequency, freq_setting_neg_1000]
  decide

/-- C3 (amended): `set_frequency` validates nothing; for every frequency
argument — positive, zero, negative, or with an oversized tuning word —
it attempts exactly five transport writes and raises no error. -/
theorem C3_no_validation (s : State) (f : ℚ) (r p : ℕ) :
    (set_frequency s f r p).2.length = 5 := rfl

/-- C4 counterexample: calling `set_frequency` for channel 1 makes
channel 1 the active channel, yet both control words it writes (the
first and the fifth, here `8448` and `8192`) have the FSELECT bit
(bit 11) clear, violating the claimed invariant. -/
theorem C4_counterexample :
    (set_frequency initState 1000 1 0).1.active_channel = 1 ∧
    ((set_frequency initState 1000 1 0).2).getD 0 0 = 8448 ∧
    Nat.testBit 8448 DDS_FSELECT = false ∧
    ((set_frequency initState 1000 1 0).2).getD 4 0 = 8192 ∧
    Nat.testBit 8192 DDS_FSELECT = false :=
  ⟨rfl, rfl, by decide, rfl, by decide⟩

/-- C4 (amended): only `set_waveform_mode` reflects the active channel:
its control word has FSELECT set exactly when the active channel is
nonzero, while the control words of `set_frequency` (first and fifth
write) never set FSELECT, whatever channel is requested. -/
theorem C4_fselect_by_operation (s : State) (mode : ℕ) (f : ℚ) (r p : ℕ)
    (hm : s.waveform_mode = DDS_SINE ∨ s.waveform_mode = DDS_TRIANGLE ∨
      s.waveform_mode = DDS_SQUARE)
    (hmode : mode = DDS_SINE ∨ mode = DDS_TRIANGLE ∨ mode = DDS_SQUARE) :
    Nat.testBit (((set_waveform_mode s mode).2).getD 0 0) DDS_FSELECT
        = decide (s.active_channel ≠ 0) ∧
    Nat.testBit (((set_frequency s f r p).2).getD 0 0) DDS_FSELECT = false ∧
    Nat.testBit (((set_frequency s f r p).2).getD 4 0) DDS_FSELECT = false := by
  obtain hm | hm | hm := hm <;> obtain hd | hd | hd := hmode <;>
    by_cases hch : s.active_channel = 0 <;>
    simp [set_waveform_mode, set_frequency, hm, hd, hch, DDS_SINE,
      DDS_TRIANGLE, DDS_SQUARE, DDS_FSELECT, DDS_B28, DDS_RESET, DDS_MODE,
      DDS_OPBITEN] <;> decide

/-- C4 witness: the amended FSELECT statement instantiated at the
freshly initialised controller switching to a triangle wave. -/
theorem C4_witness :
    (initState.waveform_mode = DDS_SINE ∨ initState.waveform_mode = DDS_TRIANGLE ∨
      initState.waveform_mode = DDS_SQUARE) ∧
    (DDS_TRIANGLE = DDS_SINE ∨ DDS_TRIANGLE = DDS_TRIANGLE ∨
      DDS_TRIANGLE = DDS_SQUARE) ∧
    (Nat.testBit (((set_waveform_mode initState DDS_TRIANGLE).2).getD 0 0)
        DDS_FSELECT = decide (initState.active_channel ≠ 0) ∧
     Nat.testBit (((set_frequency initState 1000 0 0).2).getD 0 0)
        DDS_FSELECT = false ∧
     Nat.testBit (((set_frequency initState 1000 0 0).2).getD 4 0)
        DDS_FSELECT = false) :=
  ⟨by decide, by decide,
    C4_fselect_by_operation initState DDS_TRIANGLE 1000 0 0 (by decide) (by decide)⟩

/-- C6: splitting a 28-bit tuning word into `lsb14 = word &&& 0x3FFF`
and `msb14 = (word >>> 14) &&& 0x3FFF` and reassembling as
`(msb14 <<< 14) ||| lsb14` is the identity on 28-bit words. -/
theorem C6_split_round_trip (w : ℕ) (h : w < 2 ^ 28) :
    ((split_tuning_word w).2 <<< 14) ||| (split_tuning_word w).1 = w := by
  unfold split_tuning_word
  simp only [Nat.shiftRight_eq_div_pow, Nat.shiftLeft_eq, and_16383_eq_mod]
  rw [show ((2 : ℕ) ^ 14) = 16384 from by norm_num]
  rw [lor_of_lt _ _ (by omega)]
  omega

/-- C6 witness: the split/reassemble round-trip at the concrete 28-bit
tuning word 10737. -/
theorem C6_witness :
    10737 < 2 ^ 28 ∧
    ((split_tuning_word 10737).2 <<< 14) ||| (split_tuning_word 10737).1 = 10737 :=
  ⟨by decide, C6_split_round_trip 10737 (by decide)⟩

/-- C7 counterexample: at `phase = 4096` (outside 0–4095) the emitted
phase word is `0xC000 ||| 4096 = 53248`, not the claimed
`0xC000 ||| (4096 &&& 0x0FFF) = 49152`: the code does not mask the
phase to 12 bits. -/
theorem C7_counterexample :
    ((set_frequency initState 1000 0 4096).2).getD 3 0 = 53248 ∧
    (53248 : ℕ) ≠ 0xC000 ||| (4096 &&& 0x0FFF) :=
  ⟨rfl, by decide⟩

/-- C7 (amended): the emitted phase-register word is `0xC000 ||| phase`
with no 12-bit masking; it agrees with the claimed
`0xC000 ||| (phase &&& 0x0FFF)` exactly when `phase < 4096`. -/
theorem C7_phase_word_unmasked (s : State) (f : ℚ) (r p : ℕ) :
    ((set_frequency s f r p).2).getD 3 0 = 0xC000 ||| p ∧
    (p < 4096 →
      ((set_frequency s f r p).2).getD 3 0 = 0xC000 ||| (p &&& 0x0FFF)) := by
  refine ⟨rfl, fun hp => ?_⟩
  have hmask : p &&& 4095 = p := by
    rw [show (4095 : ℕ) = 2 ^ 12 - 1 from by norm_num,
      Nat.and_pow_two_sub_one_eq_mod]
    omega
  have hbase : ((set_frequency s f r p).2).getD 3 0 = 0xC000 ||| p := rfl
  rw [hbase, hmask]

/-- C7 witness: the amended phase-word statement at `phase = 100`. -/
theorem C7_witness :
    (((set_frequency initState 1000 0 100).2).getD 3 0 = 0xC000 ||| 100 ∧
     (100 < 4096 →
       ((set_frequency initState 1000 0 100).2).getD 3 0 =
         0xC000 ||| (100 &&& 0x0FFF))) ∧ (100 : ℕ) < 4096 :=
  ⟨C7_phase_word_unmasked initState 1000 0 100, by decide⟩

/-- C8 counterexample: the constructor caches `frequency = 1000`, not
`frequency = 0` as the claim states (and it caches no phase field at
all). -/
theorem C8_counterexample :
    initState.frequency = 1000 ∧ ((1000 : ℚ) ≠ 0) :=
  ⟨rfl, by norm_num⟩

/-- C8 (amended): initialisation writes exactly two words, the reset
word `1 << DDS_RESET = 256` and then the control word
`(1 << DDS_B28) ||| DDS_SINE = 8192` (B28 flag, sine mode, reset
cleared), and establishes mode = Sine, active channel = 0 and cached
frequency = 1000; no phase is cached. -/
theorem C8_init_two_writes :
    initWrites = [1 <<< DDS_RESET, (1 <<< DDS_B28) ||| DDS_SINE] ∧
    initWrites = [256, 8192] ∧
    initWrites.length = 2 ∧
    initState.waveform_mode = DDS_SINE ∧
    initState.active_channel = 0 ∧
    initState.frequency = 1000 :=
  ⟨rfl, by decide, rfl, rfl, rfl, rfl⟩

/-- C9 counterexample: `set_waveform_mode(DDS_SQUARE)` on channel 0
writes the bare mode word `32`, which is missing the claimed B28 load
flag: the full control word would be `(1 << DDS_B28) ||| DDS_SQUARE`. -/
theorem C9_counterexample :
    (set_waveform_mode initState DDS_SQUARE).2 = [32] ∧
    ((32 : ℕ) ≠ (1 <<< DDS_B28) ||| DDS_SQUARE) ∧
    Nat.testBit 32 DDS_B28 = false :=
  ⟨by decide, by decide, by decide⟩

/-- C9 (amended): `set_waveform_mode(mode)` updates the cached mode and
performs exactly one transport write whose word is the mode bits OR-ed
with the frequency-select bit when the active channel is nonzero — the
B28 flag is NOT included — and it leaves the cached frequency and
channel unchanged. -/
theorem C9_single_mode_write (s : State) (mode : ℕ) :
    (set_waveform_mode s mode).2 =
      [if s.active_channel ≠ 0 then mode ||| (1 <<< DDS_FSELECT) else mode] ∧
    (set_waveform_mode s mode).2.length = 1 ∧
    (set_waveform_mode s mode).1.waveform_mode = mode ∧
    (set_waveform_mode s mode).1.active_channel = s.active_channel ∧
    (set_waveform_mode s mode).1.frequency = s.frequency :=
  ⟨rfl, rfl, rfl, rfl, rfl⟩

/-- C1: every `set_frequency` call emits exactly five words, in order:
the reset-qualified control word (reset OR B28 OR current mode bits),
the low-half frequency word, the high-half frequency word, the phase
word, and the control word with reset cleared (B28 OR mode bits); no
other writes occur, and every word fits in 16 bits (for the three valid
waveform modes and a phase fitting the masked width). -/
theorem C1_five_write_sequence (s : State) (f : ℚ) (r p : ℕ)
    (hm : s.waveform_mode = DDS_SINE ∨ s.waveform_mode = DDS_TRIANGLE ∨
      s.waveform_mode = DDS_SQUARE)
    (hp : p < 16384) :
    (set_frequency s f r p).2 =
      [(1 <<< DDS_RESET) ||| ((1 <<< DDS_B28) ||| s.waveform_mode),
       ((if r ≠ 0 then 0x8000 else 0x4000) |||
         ((freq_setting f) % 0x4000).toNat) &&& 0xFFFF,
       ((if r ≠ 0 then 0x8000 else 0x4000) |||
         (((freq_setting f).fdiv 0x4000) % 0x4000).toNat) &&& 0xFFFF,
       0xC000 ||| p,
       (1 <<< DDS_B28) ||| s.waveform_mode] ∧
    (set_frequency s f r p).2.length = 5 ∧
    (∀ w ∈ (set_frequency s f r p).2, w < 65536) := by
  refine ⟨rfl, rfl, ?_⟩
  intro w hw
  simp only [set_frequency, List.mem_cons, List.not_mem_nil, or_false] at hw
  obtain h | h | h | h | h := hw <;> subst h
  · obtain h | h | h := hm <;> rw [h] <;> decide
  · exact lt_of_le_of_lt Nat.and_le_right (by norm_num)
  · exact lt_of_le_of_lt Nat.and_le_right (by norm_num)
  · have h1 : (49152 : ℕ) < 2 ^ 16 := by norm_num
    have h2 : p < 2 ^ 16 := by omega
    exact lt_of_lt_of_le (Nat.or_lt_two_pow h1 h2) (by norm_num)
  · obtain h | h | h := hm <;> rw [h] <;> decide

/-- C1 witness: the five-word sequence at the freshly initialised
controller, 1000 Hz, channel 0, phase 0. -/
theorem C1_witness :
    (initState.waveform_mode = DDS_SINE ∨ initState.waveform_mode = DDS_TRIANGLE ∨
      initState.waveform_mode = DDS_SQUARE) ∧ (0 : ℕ) < 16384 ∧
    ((set_frequency initState 1000 0 0).2 =
      [(1 <<< DDS_RESET) ||| ((1 <<< DDS_B28) ||| initState.waveform_mode),
       ((if (0 : ℕ) ≠ 0 then 0x8000 else 0x4000) |||
         ((freq_setting 1000) % 0x4000).toNat) &&& 0xFFFF,
       ((if (0 : ℕ) ≠ 0 then 0x8000 else 0x4000) |||
         (((freq_setting 1000).fdiv 0x4000) % 0x4000).toNat) &&& 0xFFFF,
       0xC000 ||| 0,
       (1 <<< DDS_B28) ||| initState.waveform_mode] ∧
     (set_frequency initState 1000 0 0).2.length = 5 ∧
     (∀ w ∈ (set_frequency initState 1000 0 0).2, w < 65536)) :=
  ⟨by decide, by decide,
    C1_five_write_sequence initState 1000 0 0 (by decide) (by decide)⟩

/-- C2 counterexample: with a transport failing exactly on the third
write, `set_frequency(5000, 0)` from the initial state (cached
frequency 1000) stops after two emitted words, yet the cached frequency
afterwards is the NEW value 5000 — not the previous value 1000 as the
claim requires. -/
theorem C2_counterexample :
    (set_frequency_run initState failThird 5000 0 0).1.frequency = 5000 ∧
    ((5000 : ℚ) ≠ 1000) ∧
    ((set_frequency_run initState failThird 5000 0 0).2).1.length = 2 ∧
    ((set_frequency_run initState failThird 5000 0 0).2).2 = false :=
  ⟨rfl, by norm_num, rfl, rfl⟩

/-- C2 (amended): a transport failure does abort the remaining writes,
but the cached state is assigned at the start of the call, before any
write; so after a failure on the third write the cached frequency and
active channel hold the new, half-applied values, never the previous
ones. -/
theorem C2_state_update_precedes_writes (s : State) (ok : ℕ → Bool) (f : ℚ)
    (r p : ℕ) (h0 : ok 0 = true) (h1 : ok 1 = true) (h2 : ok 2 = false) :
    (set_frequency_run s ok f r p).1.frequency = f ∧
    (set_frequency_run s ok f r p).1.active_channel = r ∧
    (set_frequency_run s ok f r p).1.waveform_mode = s.waveform_mode ∧
    ((set_frequency_run s ok f r p).2).1.length = 2 ∧
    ((set_frequency_run s ok f r p).2).2 = false := by
  refine ⟨rfl, rfl, rfl, ?_, ?_⟩ <;>
    simp [set_frequency_run, set_frequency, attemptWrites, h0, h1, h2]

/-- C2 witness: the amended statement at the failing-third-write
transport, requesting 1000 Hz on channel 0. -/
theorem C2_witness :
    failThird 0 = true ∧ failThird 1 = true ∧ failThird 2 = false ∧
    ((set_frequency_run initState failThird 1000 0 0).1.frequency = 1000 ∧
     (set_frequency_run initState failThird 1000 0 0).1.active_channel = 0 ∧
     (set_frequency_run initState failThird 1000 0 0).1.waveform_mode =
       initState.waveform_mode ∧
     ((set_frequency_run initState failThird 1000 0 0).2).1.length = 2 ∧
     ((set_frequency_run initState failThird 1000 0 0).2).2 = false) :=
  ⟨by decide, by decide, by decide,
    C2_state_update_precedes_writes initState failThird 1000 0 0
      (by decide) (by decide) (by decide)⟩

/-- C5: the effective 28-bit tuning word carried by the two emitted
frequency words equals Python's `round(freq * 2^28 / clock)` reduced
modulo 2^28; concretely at 1000 Hz with the 25 MHz clock the tuning
word is 10737, its low 14-bit half is 10737 and its high half is 0. -/
theorem C5_tuning_word_round (s : State) (f : ℚ) (r p : ℕ) :
    ((((set_frequency s f r p).2).getD 2 0 &&& 0x3FFF) <<< 14) |||
        (((set_frequency s f r p).2).getD 1 0 &&& 0x3FFF)
      = ((freq_setting f) % 2 ^ 28).toNat ∧
    freq_setting 1000 = 10737 ∧
    ((set_frequency initState 1000 0 0).2).getD 1 0 &&& 0x3FFF = 10737 ∧
    ((set_frequency initState 1000 0 0).2).getD 2 0 &&& 0x3FFF = 0 := by
  obtain ⟨hA, hB⟩ := set_frequency_payloads s f r p
  refine ⟨?_, freq_setting_1000, ?_, ?_⟩
  · rw [hA, hB, reassemble_eq]
    norm_num
  · rw [(set_frequency_payloads initState 1000 0 0).1, freq_setting_1000]
    decide
  · rw [(set_frequency_payloads initState 1000 0 0).2, freq_setting_1000]
    decide

/-- C10 (implicit): for every frequency argument — including those with
negative or oversized tuning words — the two emitted frequency-register
words have the claimed shape `(regsel ||| (half &&& 0x3FFF)) &&& 0xFFFF`
with `regsel ∈ {0x4000, 0x8000}`, are well-formed 16-bit values, and
their 14-bit payloads reassemble to the tuning word modulo 2^28. -/
theorem C10_freq_words_wellformed (s : State) (f : ℚ) (r p : ℕ) :
    (∃ regsel, (regsel = 0x4000 ∨ regsel = 0x8000) ∧
      ((set_frequency s f r p).2).getD 1 0 =
        (regsel ||| ((freq_setting f) % 0x4000).toNat) &&& 0xFFFF ∧
      ((set_frequency s f r p).2).getD 2 0 =
        (regsel ||| (((freq_setting f).fdiv 0x4000) % 0x4000).toNat) &&& 0xFFFF) ∧
    ((set_frequency s f r p).2).getD 1 0 < 65536 ∧
    ((set_frequency s f r p).2).getD 2 0 < 65536 ∧
    ((((set_frequency s f r p).2).getD 2 0 &&& 0x3FFF) * 16384 +
        (((set_frequency s f r p).2).getD 1 0 &&& 0x3FFF)
      = ((freq_setting f) % 2 ^ 28).toNat) := by
  obtain ⟨hA, hB⟩ := set_frequency_payloads s f r p
  refine ⟨⟨if r ≠ 0 then 0x8000 else 0x4000, ?_, rfl, rfl⟩, ?_, ?_, ?_⟩
  · by_cases hr : r = 0 <;> simp [hr]
  · have h : ((set_frequency s f r p).2).getD 1 0 =
        ((if r ≠ 0 then 0x8000 else 0x4000) |||
          ((freq_setting f) % 0x4000).toNat) &&& 0xFFFF := rfl
    rw [h]
    exact lt_of_le_of_lt Nat.and_le_right (by norm_num)
  · have h : ((set_frequency s f r p).2).getD 2 0 =
        ((if r ≠ 0 then 0x8000 else 0x4000) |||
          (((freq_setting f).fdiv 0x4000) % 0x4000).toNat) &&& 0xFFFF := rfl
    rw [h]
    exact lt_of_le_of_lt Nat.and_le_right (by norm_num)
  · rw [hA, hB, Int.fdiv_eq_ediv _ (show (0 : ℤ) ≤ 16384 by norm_num),
      show ((2 : ℤ) ^ 28) = 268435456 from by norm_num]
    omega

end AD9833
